import Mathlib

/-!
Shallow embedding of `src/html-js/microbit-ble-lib.js` (class `MicrobitBLE`).

Pure notification decoders model the `DataView` accessor calls made inside
the `characteristicvaluechanged` handlers; a byte is a `Nat` below 256 and a
notification payload is a `List Nat`.  Outgoing payloads model the
`TextEncoder` (UTF-8) calls in `sendUART` and `sendTextToLED`.  The stateful
parts of the class (service/characteristic registries, the event-handler
table, the `_startAllServices` sequence) are embedded further below as
explicit state-passing functions producing action traces.
-/

namespace MicrobitBLE

/-- Model of `DataView.prototype.getUint8(o)`: the byte at offset `o`,
`none` when the payload is too short (the platform call throws). -/
def dataViewGetUint8 (bytes : List Nat) (o : Nat) : Option Nat :=
  bytes.get? o

/-- Model of `DataView.prototype.getUint16(o, true)` (little-endian):
byte `o` is the low byte, byte `o+1` the high byte. -/
def dataViewGetUint16LE (bytes : List Nat) (o : Nat) : Option Nat :=
  match bytes.get? o, bytes.get? (o + 1) with
  | some lo, some hi => some (lo + 256 * hi)
  | _, _ => none

/-- Two's-complement reading of an unsigned 16-bit value, as performed by
`DataView.prototype.getInt16`. -/
def toInt16 (u : Nat) : Int :=
  if u < 32768 then (u : Int) else (u : Int) - 65536

/-- Two's-complement reading of an unsigned 8-bit value, as performed by
`DataView.prototype.getInt8`. -/
def toInt8 (u : Nat) : Int :=
  if u < 128 then (u : Int) else (u : Int) - 256

/-- Model of `DataView.prototype.getInt16(o, true)`. -/
def dataViewGetInt16LE (bytes : List Nat) (o : Nat) : Option Int :=
  (dataViewGetUint16LE bytes o).map toInt16

/-- Model of `DataView.prototype.getInt8(o)`. -/
def dataViewGetInt8 (bytes : List Nat) (o : Nat) : Option Int :=
  (dataViewGetUint8 bytes o).map toInt8

/-- Decode of the temperature notification handler (`startTemperature`,
line 221 of `microbit-ble-lib.js`): `event.target.value.getInt8(0)`. -/
def decodeTemperature (bytes : List Nat) : Option Int :=
  dataViewGetInt8 bytes 0

/-- Decode of the accelerometer notification handler (`startAccelerometer`,
lines 247-249): `getInt16(0,true)`, `getInt16(2,true)`, `getInt16(4,true)`. -/
def decodeAccelerometer (bytes : List Nat) : Option (Int × Int × Int) :=
  match dataViewGetInt16LE bytes 0, dataViewGetInt16LE bytes 2,
      dataViewGetInt16LE bytes 4 with
  | some x, some y, some z => some (x, y, z)
  | _, _, _ => none

/-- Decode of the magnetometer data notification handler
(`startMagnetometer`, lines 315-317), identical in shape to the
accelerometer decode. -/
def decodeMagnetometerData (bytes : List Nat) : Option (Int × Int × Int) :=
  match dataViewGetInt16LE bytes 0, dataViewGetInt16LE bytes 2,
      dataViewGetInt16LE bytes 4 with
  | some x, some y, some z => some (x, y, z)
  | _, _, _ => none

/-- Decode of a button notification handler (`startButtons`, lines 276 and
285): `event.target.value.getUint8(0) === 1`. -/
def decodeButtonPressed (bytes : List Nat) : Option Bool :=
  (dataViewGetUint8 bytes 0).map (fun b => b == 1)

/-- The full effect of a button notification: the event name emitted by the
handler together with the `pressed` payload field
(`this._emit('button:' + which + ':changed', { pressed })`). -/
def buttonNotification (which : String) (bytes : List Nat) :
    Option (String × Bool) :=
  (decodeButtonPressed bytes).map
    (fun p => ("button:" ++ which ++ ":changed", p))

/-- Model of the platform `TextEncoder` for a single character: the UTF-8
byte sequence of its code point. -/
def utf8EncodeChar (c : Char) : List Nat :=
  let n := c.toNat
  if n < 128 then [n]
  else if n < 2048 then [192 + n / 64, 128 + n % 64]
  else if n < 65536 then
    [224 + n / 4096, 128 + n / 64 % 64, 128 + n % 64]
  else
    [240 + n / 262144, 128 + n / 4096 % 64, 128 + n / 64 % 64, 128 + n % 64]

/-- Model of `new TextEncoder().encode(...)` on a character sequence. -/
def textEncode (cs : List Char) : List Nat :=
  cs.flatMap utf8EncodeChar

/-- Byte payload written by `sendUART` (line 205):
`encoder.encode(text + '\n')`. -/
def sendUARTPayload (text : String) : List Nat :=
  textEncode (text ++ "\n").data

/-- Byte payload written by `sendTextToLED` (line 367):
`encoder.encode(text)`. -/
def sendTextToLEDPayload (text : String) : List Nat :=
  textEncode text.data

/-- Lookup in a JavaScript `Map` modelled as an association list with unique
keys in insertion order (`Map.prototype.get`). -/
def mapGet {α : Type} (m : List (String × α)) (k : String) : Option α :=
  match m with
  | [] => none
  | (k', v) :: rest => if k' = k then some v else mapGet rest k

/-- Model of `Map.prototype.set`: replace the existing entry in place, or
append a new entry at the end. -/
def mapSet {α : Type} (m : List (String × α)) (k : String) (v : α) :
    List (String × α) :=
  match m with
  | [] => [(k, v)]
  | (k', v') :: rest =>
    if k' = k then (k', v) :: rest else (k', v') :: mapSet rest k v

/-- The mutable state of a `MicrobitBLE` instance that the claims are about:
`this.server?.connected`, the `this.services` registry and the
`this.characteristics` registry.  Handles are opaque (`Unit`). -/
structure BLEState where
  connected : Bool
  services : List (String × Unit)
  characteristics : List (String × Unit)
deriving DecidableEq

/-- Registry state of a freshly constructed `MicrobitBLE` (constructor,
lines 41-44: `device = null`, empty `Map`s). -/
def initialState : BLEState :=
  { connected := false, services := [], characteristics := [] }

/-- Model of `_handleDisconnection` (lines 135-139): clear both registries,
then emit the `disconnection` event.  Returns the new state together with
the names of the events emitted. -/
def handleDisconnection (st : BLEState) : BLEState × List String :=
  ({ st with services := [], characteristics := [] }, ["disconnection"])

/-- Outcome of an outgoing write: the bytes handed to
`characteristic.writeValue`, or the message of the `Error` thrown. -/
inductive SendOutcome
  | ok (payload : List Nat)
  | error (message : String)
deriving DecidableEq

/-- Model of `sendUART` (lines 198-206): look up the `uart:rx`
characteristic, throw `'UART service not started'` when absent, otherwise
write the newline-terminated UTF-8 payload.  `writeOk` models whether the
platform `writeValue` call resolves.  Note the source performs no
connection check here. -/
def sendUART (st : BLEState) (text : String) (writeOk : Bool) : SendOutcome :=
  match mapGet st.characteristics "uart:rx" with
  | none => .error "UART service not started"
  | some _ =>
    if writeOk then .ok (sendUARTPayload text) else .error "write rejected"

/-- Success/failure of the platform calls made inside `sendTextToLED`. -/
structure LedEnv where
  getServiceOk : Bool
  getCharOk : Bool
  writeOk : Bool
deriving DecidableEq

/-- Shared tail of `sendTextToLED` once a LED service handle is in hand
(lines 365-369): get the text characteristic and write; any failure is
caught by the surrounding `catch`, which emits an `error` event of type
`led` and rethrows. -/
def sendTextToLEDWrite (st : BLEState) (text : String) (env : LedEnv) :
    SendOutcome × BLEState × List String :=
  if env.getCharOk then
    if env.writeOk then (.ok (sendTextToLEDPayload text), st, [])
    else (.error "write rejected", st, ["error:led"])
  else (.error "getCharacteristic rejected", st, ["error:led"])

/-- Model of `sendTextToLED` (lines 353-375): throw `'GATT not connected'`
without a live link; otherwise use the cached `led` service handle or
lazily fetch and register it, then write.  Returns the outcome, the new
state and the emitted event names. -/
def sendTextToLED (st : BLEState) (text : String) (env : LedEnv) :
    SendOutcome × BLEState × List String :=
  if st.connected then
    match mapGet st.services "led" with
    | some _ => sendTextToLEDWrite st text env
    | none =>
      if env.getServiceOk then
        sendTextToLEDWrite
          { st with services := mapSet st.services "led" () } text env
      else (.error "getPrimaryService rejected", st, ["error:led"])
  else (.error "GATT not connected", st, ["error:led"])

/-- The event-handler table of the emitter (`this.eventHandlers`); callbacks
are identified by opaque tags (`Nat`). -/
structure Emitter where
  handlers : List (String × List Nat)
deriving DecidableEq

/-- Model of `on(event, handler)` (lines 72-78): create an empty callback
list for an unknown event name, then push the handler onto the event's
list.  (The source method is named `on`; that word is reserved here.) -/
def onEvent (em : Emitter) (event : String) (handler : Nat) : Emitter :=
  match mapGet em.handlers event with
  | some hs => ⟨mapSet em.handlers event (hs ++ [handler])⟩
  | none => ⟨mapSet em.handlers event [handler]⟩

/-- The `handlers.forEach` loop of `_emit` (lines 83-89): invoke each
callback in order inside `try`/`catch`; a throwing callback
(`throws h = true`) is caught and logged, and iteration continues.
Returns the callbacks invoked, in order, and the callbacks whose failure
was logged. -/
def runHandlers (throws : Nat → Bool) : List Nat → List Nat × List Nat
  | [] => ([], [])
  | h :: rest =>
    let logged := if throws h then [h] else []
    let (inv, lg) := runHandlers throws rest
    (h :: inv, logged ++ lg)

/-- Model of `_emit(event, data)` (lines 81-90):
`this.eventHandlers.get(event) || []`, then the `forEach` loop.  The table
itself is not written to.  Returns the table afterwards, the invocation
order and the logged failures. -/
def emit (em : Emitter) (event : String) (throws : Nat → Bool) :
    Emitter × List Nat × List Nat :=
  let hs := (mapGet em.handlers event).getD []
  (em, runHandlers throws hs)

/-- One observable step of the `_startAllServices` sequence: an `await
sleep(ms)`, the invocation of one service's start method, or an event
emission `_emit(kind, { service })`. -/
inductive Act
  | sleep (ms : Nat)
  | attempt (service : String)
  | emit (kind : String) (service : String)
deriving DecidableEq

/-- Success/failure of the platform calls made while `_startAllServices`
runs: `connected` is `this.server.connected`; each `...Fails` field says
whether some platform call inside that service's start method rejects
(`getPrimaryService`, `getCharacteristic` or `startNotifications`); the
three magnetometer fields distinguish the service fetch from the two
individually probed characteristics. -/
structure StartEnv where
  connected : Bool
  uartFails : Bool
  temperatureFails : Bool
  accelerometerFails : Bool
  buttonsFails : Bool
  magServiceFails : Bool
  magDataFails : Bool
  magBearingFails : Bool
deriving DecidableEq

/-- Run of one of the four simple start methods (`startUART`,
`startTemperature`, `startAccelerometer`, `startButtons`): the `try` body
throws when the GATT link is down or a platform call fails, in which case
the `catch` emits `service:failed` and rethrows; otherwise
`service:started` is emitted.  Returns whether the method threw, and its
emitted actions. -/
def runSimpleStart (env : StartEnv) (fails : Bool) (name : String) :
    Bool × List Act :=
  if !env.connected || fails then (true, [.emit "service:failed" name])
  else (false, [.emit "service:started" name])

/-- Run of `startMagnetometer` (lines 299-350): throws when the link is
down or the service fetch fails; the data and bearing characteristics are
probed inside inner `try`/`catch` blocks that only `console.log`; when both
probes fail, `hasData` stays false and the method throws
(`'No magnetometer data available'`), its `catch` emitting
`service:failed` and rethrowing; otherwise `service:started` is emitted. -/
def runMagnetometerStart (env : StartEnv) : Bool × List Act :=
  if !env.connected || env.magServiceFails then
    (true, [.emit "service:failed" "magnetometer"])
  else if env.magDataFails && env.magBearingFails then
    (true, [.emit "service:failed" "magnetometer"])
  else (false, [.emit "service:started" "magnetometer"])

/-- One iteration of the `for` loop of `_startAllServices` (lines 155-164):
`try { await method(); await sleep(delay) } catch (error) { if (!optional)
emit('service:failed', ...) }`.  The catch block never rethrows, so the
iteration itself never throws (second component `false`). -/
def loopIter (delay : Nat) (opt : Bool) (name : String)
    (res : Bool × List Act) : List Act × Bool :=
  match res with
  | (true, tr) =>
    (.attempt name :: tr ++
      (if opt then [] else [.emit "service:failed" name]), false)
  | (false, tr) => (.attempt name :: tr ++ [.sleep delay], false)

/-- Model of `_startAllServices` (lines 142-165): an initial
`await sleep(500)`, then the five services attempted in the order of the
`services` array literal, the magnetometer marked `optional: true`.
Returns the action trace and whether the sequence's promise rejects. -/
def startAllServices (env : StartEnv) (delay : Nat) : List Act × Bool :=
  let i1 := loopIter delay false "uart" (runSimpleStart env env.uartFails "uart")
  let i2 := loopIter delay false "temperature"
    (runSimpleStart env env.temperatureFails "temperature")
  let i3 := loopIter delay false "accelerometer"
    (runSimpleStart env env.accelerometerFails "accelerometer")
  let i4 := loopIter delay false "buttons"
    (runSimpleStart env env.buttonsFails "buttons")
  let i5 := loopIter delay true "magnetometer" (runMagnetometerStart env)
  (.sleep 500 :: i1.1 ++ i2.1 ++ i3.1 ++ i4.1 ++ i5.1,
   i1.2 || i2.2 || i3.2 || i4.2 || i5.2)

/-- Whether `startUART` would throw under `env`. -/
def uartThrew (env : StartEnv) : Bool := !env.connected || env.uartFails

/-- Whether `startTemperature` would throw under `env`. -/
def temperatureThrew (env : StartEnv) : Bool :=
  !env.connected || env.temperatureFails

/-- Whether `startAccelerometer` would throw under `env`. -/
def accelerometerThrew (env : StartEnv) : Bool :=
  !env.connected || env.accelerometerFails

/-- Whether `startButtons` would throw under `env`. -/
def buttonsThrew (env : StartEnv) : Bool := !env.connected || env.buttonsFails

/-- Whether `startMagnetometer` would throw under `env`. -/
def magnetometerThrew (env : StartEnv) : Bool :=
  !env.connected || env.magServiceFails ||
    (env.magDataFails && env.magBearingFails)

/-- Number of services of the sequence whose start method returns without
throwing under `env`. -/
def numStarted (env : StartEnv) : Nat :=
  (if uartThrew env then 0 else 1) +
  (if temperatureThrew env then 0 else 1) +
  (if accelerometerThrew env then 0 else 1) +
  (if buttonsThrew env then 0 else 1) +
  (if magnetometerThrew env then 0 else 1)

/-- Projection of a trace to the service names attempted, in order. -/
def attemptsOf (l : List Act) : List String :=
  l.filterMap (fun a => match a with | .attempt n => some n | _ => none)

/-- Projection of a trace to the durations slept, in order. -/
def sleepsOf (l : List Act) : List Nat :=
  l.filterMap (fun a => match a with | .sleep ms => some ms | _ => none)

/-- Projection of a trace to the events emitted, in order, as
(kind, service) pairs. -/
def emitsOf (l : List Act) : List (String × String) :=
  l.filterMap (fun a => match a with | .emit k n => some (k, n) | _ => none)

/-- How many times the event `kind` was emitted for `service` in a trace. -/
def countEmits (l : List Act) (kind service : String) : Nat :=
  (emitsOf l).count (kind, service)

/-- A run in which every platform call succeeds except that the UART
service fails to open. -/
def envUartFails : StartEnv :=
  ⟨true, true, false, false, false, false, false, false⟩

/-- A run in which every platform call succeeds except that the
magnetometer service fails to open. -/
def envMagFails : StartEnv :=
  ⟨true, false, false, false, false, true, false, false⟩

/-- A run in which the GATT link is down, so every start method throws. -/
def envAllDown : StartEnv :=
  ⟨false, false, false, false, false, false, false, false⟩

lemma toInt16_eq_bmod (u : Nat) (h : u < 65536) :
    toInt16 u = Int.bmod (u : Int) 65536 := by
  unfold toInt16
  simp only [Int.bmod]
  have hu : (u : Int) % (65536 : Nat) = (u : Int) := by
    apply Int.emod_eq_of_lt <;> omega
  split <;> split <;> omega

lemma toInt8_eq_bmod (u : Nat) (h : u < 256) :
    toInt8 u = Int.bmod (u : Int) 256 := by
  unfold toInt8
  simp only [Int.bmod]
  split <;> split <;> omega

lemma mapGet_mapSet_self {α : Type} (m : List (String × α)) (k : String)
    (v : α) : mapGet (mapSet m k v) k = some v := by
  induction m with
  | nil => simp [mapSet, mapGet]
  | cons p rest ih =>
    rcases p with ⟨k', v'⟩
    by_cases h : k' = k <;> simp [mapSet, mapGet, h, ih]

lemma runHandlers_eq (throws : Nat → Bool) (l : List Nat) :
    runHandlers throws l = (l, l.filter throws) := by
  induction l with
  | nil => rfl
  | cons h t ih =>
    by_cases hth : throws h <;>
      simp [runHandlers, ih, List.filter_cons, hth]

/-- C3: sending text over UART encodes the string as UTF-8 with exactly one
trailing newline byte appended (the payload is the LED payload, i.e. the
plain UTF-8 encoding, followed by the single byte 10), so `"hi"` writes the
3 bytes `h`,`i`,`\n`; sending text to the LED appends no terminator, so
`"A"` writes exactly 1 byte. -/
theorem c3_text_encoding :
    (∀ s : String, sendUARTPayload s = sendTextToLEDPayload s ++ [10])
    ∧ sendUARTPayload "hi" = [104, 105, 10]
    ∧ sendTextToLEDPayload "A" = [65] := by
  refine ⟨fun s => ?_, by decide, by decide⟩
  unfold sendUARTPayload sendTextToLEDPayload textEncode
  rw [String.data_append, List.flatMap_append]
  rfl

/-- C5: every 6-byte accelerometer or magnetometer payload decodes to the
three signed 16-bit little-endian two's-complement values of its three
2-byte slices (`Int.bmod _ 65536` of the little-endian unsigned value),
and in particular `[0x10,0x00,0xF0,0xFF,0x00,0x04]` decodes to
`(16, -16, 1024)`. -/
theorem c5_axis_decode (b0 b1 b2 b3 b4 b5 : Nat)
    (h0 : b0 < 256) (h1 : b1 < 256) (h2 : b2 < 256) (h3 : b3 < 256)
    (h4 : b4 < 256) (h5 : b5 < 256) :
    decodeAccelerometer [b0, b1, b2, b3, b4, b5] =
      some (((b0 + 256 * b1 : Nat) : Int).bmod 65536,
            ((b2 + 256 * b3 : Nat) : Int).bmod 65536,
            ((b4 + 256 * b5 : Nat) : Int).bmod 65536)
    ∧ decodeMagnetometerData [b0, b1, b2, b3, b4, b5] =
      some (((b0 + 256 * b1 : Nat) : Int).bmod 65536,
            ((b2 + 256 * b3 : Nat) : Int).bmod 65536,
            ((b4 + 256 * b5 : Nat) : Int).bmod 65536)
    ∧ decodeAccelerometer [0x10, 0x00, 0xF0, 0xFF, 0x00, 0x04] =
      some (16, -16, 1024) := by
  have ea : decodeAccelerometer [b0, b1, b2, b3, b4, b5] =
      some (toInt16 (b0 + 256 * b1), toInt16 (b2 + 256 * b3),
            toInt16 (b4 + 256 * b5)) := rfl
  have em : decodeMagnetometerData [b0, b1, b2, b3, b4, b5] =
      some (toInt16 (b0 + 256 * b1), toInt16 (b2 + 256 * b3),
            toInt16 (b4 + 256 * b5)) := rfl
  refine ⟨?_, ?_, by decide⟩
  · rw [ea, toInt16_eq_bmod _ (by omega), toInt16_eq_bmod _ (by omega),
      toInt16_eq_bmod _ (by omega)]
  · rw [em, toInt16_eq_bmod _ (by omega), toInt16_eq_bmod _ (by omega),
      toInt16_eq_bmod _ (by omega)]

/-- Witness for C5 at the spec's concrete bytes. -/
theorem c5_axis_decode_witness :
    decodeAccelerometer [16, 0, 240, 255, 0, 4] =
      some (((16 + 256 * 0 : Nat) : Int).bmod 65536,
            ((240 + 256 * 255 : Nat) : Int).bmod 65536,
            ((0 + 256 * 4 : Nat) : Int).bmod 65536)
    ∧ decodeMagnetometerData [16, 0, 240, 255, 0, 4] =
      some (((16 + 256 * 0 : Nat) : Int).bmod 65536,
            ((240 + 256 * 255 : Nat) : Int).bmod 65536,
            ((0 + 256 * 4 : Nat) : Int).bmod 65536)
    ∧ decodeAccelerometer [0x10, 0x00, 0xF0, 0xFF, 0x00, 0x04] =
      some (16, -16, 1024) :=
  c5_axis_decode 16 0 240 255 0 4 (by decide) (by decide) (by decide)
    (by decide) (by decide) (by decide)

/-- C6: every 1-byte temperature payload decodes to the signed 8-bit
two's-complement value of the byte (`Int.bmod _ 256`), which always lies in
[-128, 127]; in particular byte `0xE8` decodes to `-24`. -/
theorem c6_temperature_decode (b : Nat) (rest : List Nat) (h : b < 256) :
    decodeTemperature (b :: rest) = some ((b : Int).bmod 256)
    ∧ -128 ≤ (b : Int).bmod 256 ∧ (b : Int).bmod 256 ≤ 127
    ∧ decodeTemperature [0xE8] = some (-24) := by
  have e : decodeTemperature (b :: rest) = some (toInt8 b) := rfl
  have eb := toInt8_eq_bmod b h
  refine ⟨by rw [e, eb], ?_, ?_, by decide⟩
  · rw [← eb]; unfold toInt8; split <;> omega
  · rw [← eb]; unfold toInt8; split <;> omega

/-- Witness for C6 at the spec's concrete byte `0xE8`. -/
theorem c6_temperature_decode_witness :
    decodeTemperature [232] = some ((232 : Int).bmod 256)
    ∧ -128 ≤ ((232 : Nat) : Int).bmod 256 ∧ ((232 : Nat) : Int).bmod 256 ≤ 127
    ∧ decodeTemperature [0xE8] = some (-24) :=
  c6_temperature_decode 232 [] (by decide)

/-- C1 counterexample: the button handlers decode with `getUint8(0) === 1`,
so the nonzero byte value 2 decodes to `pressed = false`, not `true` as the
claim states, for both buttons. -/
theorem c1_button_decode_counterexample :
    buttonNotification "a" [2] = some ("button:a:changed", false)
    ∧ buttonNotification "a" [2] ≠ some ("button:a:changed", true)
    ∧ buttonNotification "b" [2] = some ("button:b:changed", false) := by
  decide

/-- C1 amended: the button decode maps byte value 1 to `pressed = true` and
every other byte value (0 and every nonzero value other than 1) to
`pressed = false`, and the boolean is emitted as the `pressed` field of the
`button:<which>:changed` event. -/
theorem c1_button_decode_amended (which : String) (b : Nat) (rest : List Nat) :
    (b = 1 → buttonNotification which (b :: rest) =
      some ("button:" ++ which ++ ":changed", true))
    ∧ (b ≠ 1 → buttonNotification which (b :: rest) =
      some ("button:" ++ which ++ ":changed", false)) := by
  constructor
  · intro hb; subst hb; rfl
  · intro hb
    have hbe : (b == 1) = false := by simp [hb]
    simp [buttonNotification, decodeButtonPressed, dataViewGetUint8, hbe]

/-- Witness for the amended C1 on both branches. -/
theorem c1_button_decode_amended_witness :
    buttonNotification "a" [0] = some ("button:a:changed", false)
    ∧ buttonNotification "b" [1] = some ("button:b:changed", true) :=
  ⟨(c1_button_decode_amended "a" 0 []).2 (by decide),
   (c1_button_decode_amended "b" 1 []).1 rfl⟩

/-- C4: whenever the disconnect callback fires, in whatever state the
manager is in (including mid-way through the service-start sequence), both
registries are cleared in the same step — no service or characteristic
handle is reachable afterwards — the `disconnection` event is emitted, and
the registries are back to their freshly-constructed (ready-to-connect)
state. -/
theorem c4_disconnection_clears_registries (st : BLEState) :
    (handleDisconnection st).1.services = []
    ∧ (handleDisconnection st).1.characteristics = []
    ∧ (∀ k, mapGet (handleDisconnection st).1.services k = none)
    ∧ (∀ k, mapGet (handleDisconnection st).1.characteristics k = none)
    ∧ (handleDisconnection st).2 = ["disconnection"]
    ∧ (handleDisconnection st).1.services = initialState.services
    ∧ (handleDisconnection st).1.characteristics =
        initialState.characteristics :=
  ⟨rfl, rfl, fun _ => rfl, fun _ => rfl, rfl, rfl, rfl⟩

/-- C9: emitting an event invokes exactly the registered callbacks of that
event in registration order; each throwing callback is caught and logged
and the remaining callbacks still run; the handler table is unchanged; and
`on` appends a callback at the end of the event's list. -/
theorem c9_emit_fanout (em : Emitter) (event : String) (throws : Nat → Bool) :
    (emit em event throws).1 = em
    ∧ (emit em event throws).2.1 = (mapGet em.handlers event).getD []
    ∧ (emit em event throws).2.2 =
        ((mapGet em.handlers event).getD []).filter throws
    ∧ ∀ cb, mapGet (onEvent em event cb).handlers event =
        some ((mapGet em.handlers event).getD [] ++ [cb]) := by
  refine ⟨rfl, ?_, ?_, ?_⟩
  · simp [emit, runHandlers_eq]
  · simp [emit, runHandlers_eq]
  · intro cb
    cases he : mapGet em.handlers event with
    | none => simp [onEvent, he, mapGet_mapSet_self]
    | some hs => simp [onEvent, he, mapGet_mapSet_self]

/-- C8 counterexample: `sendUART` performs the write with no active link
(it never checks the connection, so it does not fail with a NotConnected
error), and `sendTextToLED` on a connected manager whose LED service was
never opened performs the write after opening the service lazily (it does
not fail with a ServiceUnavailable error). -/
theorem c8_send_preconditions_counterexample :
    sendUART ⟨false, [], [("uart:rx", ())]⟩ "hi" true = .ok [104, 105, 10]
    ∧ sendTextToLED ⟨true, [], []⟩ "A" ⟨true, true, true⟩ =
        (.ok [65], ⟨true, [("led", ())], []⟩, []) := by
  constructor
  · rfl
  · rfl

/-- C8 amended: `sendUART` fails with `'UART service not started'` exactly
when the `uart:rx` characteristic was never opened, and otherwise performs
the write without any connection check; `sendTextToLED` fails with
`'GATT not connected'` exactly when there is no active link, and when
connected it never fails for an unopened LED service — it opens and
registers the service on demand and performs the write when the platform
calls succeed. -/
theorem c8_send_preconditions_amended (st : BLEState) (text : String) :
    (mapGet st.characteristics "uart:rx" = none →
      sendUART st text true = .error "UART service not started")
    ∧ (∀ h : Unit, mapGet st.characteristics "uart:rx" = some h →
      sendUART st text true = .ok (sendUARTPayload text))
    ∧ (st.connected = false → ∀ env,
      sendTextToLED st text env =
        (.error "GATT not connected", st, ["error:led"]))
    ∧ (st.connected = true → mapGet st.services "led" = none →
      sendTextToLED st text ⟨true, true, true⟩ =
        (.ok (sendTextToLEDPayload text),
         { st with services := mapSet st.services "led" () }, [])) := by
  refine ⟨?_, ?_, ?_, ?_⟩
  · intro h; simp [sendUART, h]
  · intro h hh; simp [sendUART, hh]
  · intro h env; simp [sendTextToLED, h]
  · intro hc hl
    simp [sendTextToLED, hc, hl, sendTextToLEDWrite]

/-- Witness for the amended C8 on all four branches at concrete states. -/
theorem c8_send_preconditions_amended_witness :
    sendUART ⟨true, [], []⟩ "x" true = .error "UART service not started"
    ∧ sendUART ⟨true, [], [("uart:rx", ())]⟩ "x" true =
        .ok (sendUARTPayload "x")
    ∧ sendTextToLED ⟨false, [], []⟩ "x" ⟨true, true, true⟩ =
        (.error "GATT not connected", ⟨false, [], []⟩, ["error:led"])
    ∧ sendTextToLED ⟨true, [], []⟩ "x" ⟨true, true, true⟩ =
        (.ok (sendTextToLEDPayload "x"),
         { (⟨true, [], []⟩ : BLEState) with services := mapSet [] "led" () },
         []) :=
  ⟨(c8_send_preconditions_amended ⟨true, [], []⟩ "x").1 rfl,
   (c8_send_preconditions_amended ⟨true, [], [("uart:rx", ())]⟩ "x").2.1 () rfl,
   (c8_send_preconditions_amended ⟨false, [], []⟩ "x").2.2.1 rfl ⟨true, true, true⟩,
   (c8_send_preconditions_amended ⟨true, [], []⟩ "x").2.2.2 rfl rfl⟩

/-- C2 counterexample: with every platform call succeeding except the UART
service open, the UART failure happens (its `service:failed` is emitted,
twice) yet `_startAllServices` resolves normally — the failure is not
surfaced to the caller; and with only the magnetometer failing, the
magnetometer failure is not silent: `startMagnetometer`'s own catch emits a
`service:failed` event. -/
theorem c2_failure_propagation_counterexample :
    (startAllServices envUartFails 300).2 = false
    ∧ countEmits (startAllServices envUartFails 300).1
        "service:failed" "uart" = 2
    ∧ (startAllServices envMagFails 300).2 = false
    ∧ countEmits (startAllServices envMagFails 300).1
        "service:failed" "magnetometer" = 1 := by
  decide

set_option maxHeartbeats 1600000 in
/-- C2 amended: no service failure is ever surfaced to the caller of
`_startAllServices` — the loop's catch swallows every error, magnetometer
or not, so the sequence always resolves; a magnetometer failure is reported
by exactly one `service:failed` event (emitted by `startMagnetometer`
itself; the loop, seeing `optional: true`, adds none), while a
non-magnetometer failure is reported by `service:failed` events only,
never by rejection. -/
theorem c2_failure_propagation_amended (env : StartEnv) (delay : Nat) :
    (startAllServices env delay).2 = false
    ∧ countEmits (startAllServices env delay).1
        "service:failed" "magnetometer" =
      (if magnetometerThrew env then 1 else 0) := by
  rcases env with ⟨c, u, t, a, b, ms, md, mb⟩
  cases c <;> cases u <;> cases t <;> cases a <;> cases b <;> cases ms <;>
    cases md <;> cases mb <;> exact ⟨rfl, rfl⟩

/-- C7 counterexample: with the UART open failing and a 300 ms delay, the
trace pauses only after the four successful attempts; between the failed
UART attempt and the temperature attempt there is no sleep at all, so the
claim's "pauses the delay whether the attempt succeeded or failed" is
false. -/
theorem c7_delay_counterexample :
    (startAllServices envUartFails 300).1 =
      [.sleep 500,
       .attempt "uart", .emit "service:failed" "uart",
       .emit "service:failed" "uart",
       .attempt "temperature", .emit "service:started" "temperature",
       .sleep 300,
       .attempt "accelerometer", .emit "service:started" "accelerometer",
       .sleep 300,
       .attempt "buttons", .emit "service:started" "buttons", .sleep 300,
       .attempt "magnetometer", .emit "service:started" "magnetometer",
       .sleep 300]
    ∧ ((startAllServices envUartFails 300).1.dropWhile
          (fun a => a != .attempt "uart")).tail.takeWhile
          (fun a => a != .attempt "temperature") =
        [.emit "service:failed" "uart", .emit "service:failed" "uart"] := by
  decide

set_option maxHeartbeats 1600000 in
/-- C7 amended: the sequence attempts the services in exactly the fixed
order UART, temperature, accelerometer, buttons, magnetometer, after an
initial 500 ms pause; the configurable delay is paused once after each
successful attempt, and skipped after a failed attempt (the `await
sleep(delay)` sits inside the `try`, after the start method). -/
theorem c7_sequence_order_and_delay (env : StartEnv) (delay : Nat) :
    attemptsOf (startAllServices env delay).1 =
      ["uart", "temperature", "accelerometer", "buttons", "magnetometer"]
    ∧ (startAllServices env delay).1.head? = some (.sleep 500)
    ∧ sleepsOf ((startAllServices env delay).1.tail) =
        List.replicate (numStarted env) delay := by
  rcases env with ⟨c, u, t, a, b, ms, md, mb⟩
  cases c <;> cases u <;> cases t <;> cases a <;> cases b <;> cases ms <;>
    cases md <;> cases mb <;> exact ⟨rfl, rfl, rfl⟩

set_option maxHeartbeats 1600000 in
/-- C10: during the sequence, a failing required service (uart,
temperature, accelerometer, buttons) gets `service:failed` emitted exactly
twice — once by its own start method's catch, once more by the loop — while
a failing magnetometer gets it exactly once, from `startMagnetometer`
only. -/
theorem c10_service_failed_event_counts (env : StartEnv) (delay : Nat) :
    countEmits (startAllServices env delay).1 "service:failed" "uart" =
      (if uartThrew env then 2 else 0)
    ∧ countEmits (startAllServices env delay).1
        "service:failed" "temperature" =
      (if temperatureThrew env then 2 else 0)
    ∧ countEmits (startAllServices env delay).1
        "service:failed" "accelerometer" =
      (if accelerometerThrew env then 2 else 0)
    ∧ countEmits (startAllServices env delay).1
        "service:failed" "buttons" =
      (if buttonsThrew env then 2 else 0)
    ∧ countEmits (startAllServices env delay).1
        "service:failed" "magnetometer" =
      (if magnetometerThrew env then 1 else 0) := by
  rcases env with ⟨c, u, t, a, b, ms, md, mb⟩
  cases c <;> cases u <;> cases t <;> cases a <;> cases b <;> cases ms <;>
    cases md <;> cases mb <;> exact ⟨rfl, rfl, rfl, rfl, rfl⟩

end MicrobitBLE
